import Mathlib

/-!
Verification development for the synthy voice engine.

The definitions below are a shallow embedding of the envelope-driven voice
engine: the per-block processing loop of the plugin (event handling, master
envelope stage advancement, per-envelope value emission, transport advance)
and the curve interpolation helper.  Machine floats are modelled as exact
rationals (every f32 value is rational); the real-exponent power used by the
interpolation helper is modelled with real-number exponentiation, which
follows the same conventions as the float power routine at the arguments the
theorems use (0 ^ 0 = 1, 1 ^ e = 1, 0 ^ e = 0 for e > 0).  The unsigned
integer subtraction performed on the point-list length during note-off is
modelled as a fallible operation: the embedding returns an error exactly
where a debug build of the program aborts on underflow.
-/

namespace Synthy

/-- Linear interpolation `a + (b - a) * t`, as in the DSP library helper
used by the processing loop. -/
def qlerp (a b t : ℚ) : ℚ := a + (b - a) * t

/-- Linear interpolation over the reals, used by the curve interpolation
helper. -/
def rlerp (a b t : ℝ) : ℝ := a + (b - a) * t

/-- Curve interpolation `xlerp` from the math utility module: a special
branch returns `0` when `curve = -1`; otherwise an exponent is computed from
`curve` and the interpolation position is warped by a real power before
linear interpolation.  Inputs are modelled as rationals (exact float
values), the result as a real number. -/
noncomputable def xlerp (a b t curve : ℚ) : ℝ :=
  if curve = -1 then 0
  else
    let e : ℚ := if curve > 0 then 1 - curve else 1 / (1 - |curve|)
    rlerp (a : ℝ) (b : ℝ) ((t : ℝ) ^ (e : ℝ))

/-- The currently sounding note: pitch, velocity, activation time (seconds)
and the current envelope stage index. -/
structure NoteInfo where
  note : ℕ
  velocity : ℕ
  onTime : ℚ
  stage : ℕ
deriving DecidableEq

/-- The four persisted envelope point lists (time, value pairs): the two
operator envelopes, the noise envelope and the master amplitude envelope. -/
structure Params where
  aEnv : List (ℚ × ℚ)
  bEnv : List (ℚ × ℚ)
  noiseEnv : List (ℚ × ℚ)
  env : List (ℚ × ℚ)

/-- Mutable per-voice state: transport time, the optional active note, the
enabled flag, and the last value written to each envelope tag of the signal
graph (tags start at zero and keep their value until overwritten). -/
structure State where
  time : ℚ
  note : Option NoteInfo
  enabled : Bool
  aEnvVal : ℚ
  bEnvVal : ℚ
  noiseEnvVal : ℚ
  envVal : ℚ
deriving DecidableEq

/-- A MIDI event as consumed by the processing loop (at most one per
block). -/
inductive NoteEvent where
  | noteOn (note velocity : ℕ)
  | noteOff (note velocity : ℕ)
deriving DecidableEq

/-- The default five-point envelope shipped with the plugin. -/
def defaultEnv : List (ℚ × ℚ) :=
  [(0, 0), (1/2, 1), (1, 7/10), (2, 1/2), (3, 0)]

/-- Default parameters: all four envelopes are the default five-point
shape. -/
def defaultParams : Params :=
  ⟨defaultEnv, defaultEnv, defaultEnv, defaultEnv⟩

/-- Initial voice state: time zero, no note, disabled, all envelope tags at
zero. -/
def initState : State :=
  ⟨0, none, false, 0, 0, 0, 0⟩

/-- Event handling at the top of the processing block.  A note-on always
overwrites the current note (stage reset to 0, activation time set to the
current transport time) and enables the voice.  A note-off acts only when
the active note's pitch matches: it stores the release velocity and sets the
stage to `length - 2` of the master envelope point list; this subtraction is
on an unsigned integer, so a list with fewer than two points underflows
(a debug build aborts), modelled as an error.  The activation time is left
unchanged (the time-offset recomputation in the program is commented out). -/
def applyEvent (p : Params) (s : State) (ev : Option NoteEvent) :
    Except Unit State :=
  match ev with
  | none => Except.ok s
  | some (NoteEvent.noteOn n v) =>
      Except.ok { s with enabled := true, note := some ⟨n, v, s.time, 0⟩ }
  | some (NoteEvent.noteOff n v) =>
      match s.note with
      | none => Except.ok s
      | some cur =>
          if cur.note = n then
            if p.env.length < 2 then Except.error ()
            else
              Except.ok { s with
                note := some { cur with velocity := v,
                                        stage := p.env.length - 2 } }
          else Except.ok s

/-- Master-envelope tick: if a note is active, advance its stage by one when
the relative time has reached the next point's time (a single conditional
increment per block); afterwards clear the note when the stage equals the
length of the master point list. -/
def tickMaster (p : Params) (s : State) : State :=
  match s.note with
  | none => s
  | some note =>
      let rel : ℚ := s.time - note.onTime
      let note' : NoteInfo :=
        match p.env.get? (note.stage + 1) with
        | some next => if rel ≥ next.1 then { note with stage := note.stage + 1 }
                       else note
        | none => note
      if note'.stage = p.env.length then { s with note := none }
      else { s with note := some note' }

/-- Envelope value computation of the per-block `set_env` closure: when both
the stage point and its successor exist, linearly interpolate their values
at the normalized position `(relative_time - left.time) / (right.time -
left.time)`; no value is produced otherwise.  The position is not clamped
and the zero-length-segment division is not guarded. -/
def envValue (points : List (ℚ × ℚ)) (time : ℚ) (note : NoteInfo) : Option ℚ :=
  match points.get? note.stage, points.get? (note.stage + 1) with
  | some left, some right =>
      let rel : ℚ := time - note.onTime
      let normalized : ℚ := (rel - left.1) / (right.1 - left.1)
      some (qlerp left.2 right.2 normalized)
  | _, _ => none

/-- Write a produced value to the operator-A envelope tag; keep the old
value when no value was produced. -/
def writeATag (s : State) (v : Option ℚ) : State :=
  match v with
  | some v => { s with aEnvVal := v }
  | none => s

/-- Write a produced value to the operator-B envelope tag. -/
def writeBTag (s : State) (v : Option ℚ) : State :=
  match v with
  | some v => { s with bEnvVal := v }
  | none => s

/-- Write a produced value to the noise envelope tag. -/
def writeNoiseTag (s : State) (v : Option ℚ) : State :=
  match v with
  | some v => { s with noiseEnvVal := v }
  | none => s

/-- Write a produced value to the master envelope tag. -/
def writeEnvTag (s : State) (v : Option ℚ) : State :=
  match v with
  | some v => { s with envVal := v }
  | none => s

/-- Run the `set_env` closure for each of the four envelopes, writing each
produced value to its tag; tags keep their previous value when no value is
produced or when no note is active.  All four closures read the same shared
stage index stored on the note. -/
def applyAllEnvs (p : Params) (s : State) : State :=
  match s.note with
  | none => s
  | some note =>
      writeEnvTag
        (writeNoiseTag
          (writeBTag
            (writeATag s (envValue p.aEnv s.time note))
            (envValue p.bEnv s.time note))
          (envValue p.noiseEnv s.time note))
        (envValue p.env s.time note)

/-- One processing block: handle at most one MIDI event, tick the master
envelope, emit the four envelope values, then (only when the voice is
enabled) advance the transport clock by the block duration and render the
signal graph.  The enabled flag is set by note-on and never cleared. -/
def processBlock (p : Params) (blockDur : ℚ) (s : State)
    (ev : Option NoteEvent) : Except Unit State :=
  match applyEvent p s ev with
  | Except.error e => Except.error e
  | Except.ok s1 =>
      let s3 := applyAllEnvs p (tickMaster p s1)
      if s3.enabled then
        Except.ok { s3 with time := s3.time + blockDur }
      else
        Except.ok s3

/-- Fold a sequence of blocks (one optional event per block) over the
state. -/
def runBlocks (p : Params) (blockDur : ℚ) (s : State)
    (evs : List (Option NoteEvent)) : Except Unit State :=
  match evs with
  | [] => Except.ok s
  | ev :: rest =>
      match processBlock p blockDur s ev with
      | Except.error e => Except.error e
      | Except.ok s' => runBlocks p blockDur s' rest

/-- Stage of the active note of a processing result, when both exist. -/
def noteStageOf (r : Except Unit State) : Option ℕ :=
  match r with
  | Except.ok s => Option.map NoteInfo.stage s.note
  | Except.error _ => none

/-- Whether the processing result still carries an active note. -/
def hasNote (r : Except Unit State) : Bool :=
  match r with
  | Except.ok s => s.note.isSome
  | Except.error _ => false

/-- Master-envelope tag value of a processing result. -/
def envValOf (r : Except Unit State) : Option ℚ :=
  match r with
  | Except.ok s => some s.envVal
  | Except.error _ => none

/-- Operator-A envelope tag value of a processing result. -/
def aEnvValOf (r : Except Unit State) : Option ℚ :=
  match r with
  | Except.ok s => some s.aEnvVal
  | Except.error _ => none

/-- Transport time of a processing result. -/
def timeOf (r : Except Unit State) : Option ℚ :=
  match r with
  | Except.ok s => some s.time
  | Except.error _ => none

/-- The envelope output rule as the specification words it: a zero-length
segment is treated as an instantaneous step to the right point's value, and
the normalized position is clamped to the unit interval before
interpolation.  Modelled from the spec for comparison with `envValue`. -/
def specEnvValue (points : List (ℚ × ℚ)) (time : ℚ) (note : NoteInfo) :
    Option ℚ :=
  match points.get? note.stage, points.get? (note.stage + 1) with
  | some left, some right =>
      if left.1 = right.1 then some right.2
      else
        let rel : ℚ := time - note.onTime
        let normalized : ℚ := (rel - left.1) / (right.1 - left.1)
        some (qlerp left.2 right.2 (max 0 (min 1 normalized)))
  | _, _ => none

/-- Event sequence: a note-on followed by seven empty blocks. -/
def evsNoteOnLong : List (Option NoteEvent) :=
  some (NoteEvent.noteOn 60 100) :: List.replicate 7 none

/-- Event sequence: a note-on followed by five empty blocks. -/
def evsNoteOnShort : List (Option NoteEvent) :=
  some (NoteEvent.noteOn 60 100) :: List.replicate 5 none

/-- Event sequence: a note-on, five empty blocks, then a matching
note-off. -/
def evsWithNoteOff : List (Option NoteEvent) :=
  evsNoteOnShort ++ [some (NoteEvent.noteOff 60 90)]

/-- Event sequence: a note-on, then six empty blocks. -/
def evsWithoutNoteOff : List (Option NoteEvent) :=
  evsNoteOnShort ++ [none]

/-- Parameters whose four point lists are all empty. -/
def emptyParams : Params := ⟨[], [], [], []⟩

/-- Parameters whose four point lists hold a single point. -/
def onePointParams : Params :=
  ⟨[(0, 9/10)], [(0, 9/10)], [(0, 9/10)], [(0, 9/10)]⟩

/-- A voice state with an active note at stage 0, a tenth of a second after
activation. -/
def oneActiveState : State := ⟨1/10, some ⟨60, 100, 0, 0⟩, true, 0, 0, 0, 0⟩

/-- A voice state whose active note is still at stage 0 although one and a
half seconds have elapsed (two point times of the default envelope have been
passed). -/
def skippedState : State := ⟨3/2, some ⟨60, 100, 0, 0⟩, true, 0, 0, 0, 0⟩

/-- A two-point list whose points share the same time: a zero-length
(degenerate) segment. -/
def degSeg : List (ℚ × ℚ) := [(1, 1/5), (1, 4/5)]

end Synthy

namespace Synthy

/-! Theorems. -/

/-- C3 counterexample: the claim says `interpolate(a, b, t, -1)` returns `a`
for `t < 1` and `b` at `t = 1`; the code returns `0` on the `curve = -1`
branch regardless of the endpoints, so at `a = 1, b = 2, t = 1/2` the result
is not `a`, and at `a = 0, b = 2, t = 1` it is not `b`. -/
theorem c3_counterexample :
    xlerp 1 2 (1/2) (-1) ≠ ((1 : ℚ) : ℝ) ∧
    xlerp 0 2 1 (-1) ≠ ((2 : ℚ) : ℝ) := by
  constructor <;> simp [xlerp]

/-- C3 amended: on the `curve = -1` branch the function returns the constant
`0` for every pair of endpoints and every position in the unit interval (the
claimed step function holding the start value exists only when the start
value happens to be `0`). -/
theorem c3_neg_one_curve_returns_zero (a b t : ℚ) (_h0 : 0 ≤ t)
    (_h1 : t ≤ 1) : xlerp a b t (-1) = 0 := by
  simp [xlerp]

/-- C3 witness: the spec's own example `interpolate(0, 2, 0.6, -1) = 0`,
through the amended theorem. -/
theorem c3_neg_one_curve_returns_zero_witness :
    (0 ≤ (3/5 : ℚ)) ∧ ((3/5 : ℚ) ≤ 1) ∧ xlerp 0 2 (3/5) (-1) = 0 :=
  ⟨by norm_num, by norm_num,
    c3_neg_one_curve_returns_zero 0 2 (3/5) (by norm_num) (by norm_num)⟩

/-- C4 counterexample: the claim says `interpolate(a, b, 0, curve) = a` and
`interpolate(a, b, 1, curve) = b` for every `curve` in `[-1, 1]`; at
`curve = -1` the code returns `0` (not `a = 1`), and at `curve = 1` the
exponent is `0`, `0 ^ 0 = 1`, so the value at `t = 0` is `b = 1` (not
`a = 0`). -/
theorem c4_counterexample :
    xlerp 1 2 0 (-1) ≠ ((1 : ℚ) : ℝ) ∧
    xlerp 0 1 0 1 ≠ ((0 : ℚ) : ℝ) := by
  constructor
  · simp [xlerp]
  · norm_num [xlerp, rlerp]

/-- Evaluation of `xlerp` away from the special `curve = -1` branch: the
position is warped by the power of the computed exponent and fed to linear
interpolation. -/
theorem xlerp_of_ne_neg_one (a b t c : ℚ) (hne : c ≠ -1) :
    xlerp a b t c =
      rlerp (a : ℝ) (b : ℝ)
        ((t : ℝ) ^ (((if c > 0 then 1 - c else 1 / (1 - |c|)) : ℚ) : ℝ)) := by
  simp only [xlerp, if_neg hne]

/-- The exponent computed by `xlerp` is positive for every curve strictly
between `-1` and `1`. -/
theorem xlerp_exp_pos (c : ℚ) (hl : -1 < c) (hr : c < 1) :
    (0 : ℚ) < (if c > 0 then 1 - c else 1 / (1 - |c|)) := by
  split
  · linarith
  · have habs : |c| = -c := abs_of_nonpos (by linarith)
    rw [habs, sub_neg_eq_add]
    exact div_pos one_pos (by linarith)

/-- C4 amended: for every `curve` strictly between `-1` and `1`, the
interpolation returns `a` at `t = 0` and `b` at `t = 1` (both endpoint
curves `-1` and `1` violate at least one of the two identities). -/
theorem c4_endpoints (a b c : ℚ) (hl : -1 < c) (hr : c < 1) :
    xlerp a b 0 c = ((a : ℚ) : ℝ) ∧ xlerp a b 1 c = ((b : ℚ) : ℝ) := by
  have hne : c ≠ -1 := ne_of_gt hl
  have hepos := xlerp_exp_pos c hl hr
  constructor
  · rw [xlerp_of_ne_neg_one a b 0 c hne, Rat.cast_zero,
      Real.zero_rpow (by exact_mod_cast hepos.ne')]
    unfold rlerp
    ring
  · rw [xlerp_of_ne_neg_one a b 1 c hne, Rat.cast_one, Real.one_rpow]
    unfold rlerp
    ring

/-- C4 witness: the amended endpoint identities at the linear curve
`c = 0`, with endpoints `3` and `7`. -/
theorem c4_endpoints_witness :
    (-1 : ℚ) < 0 ∧ (0 : ℚ) < 1 ∧
      (xlerp 3 7 0 0 = ((3 : ℚ) : ℝ) ∧ xlerp 3 7 1 0 = ((7 : ℚ) : ℝ)) :=
  ⟨by norm_num, by norm_num, c4_endpoints 3 7 0 (by norm_num) (by norm_num)⟩

/-- C1: with the default five-point envelope, a note activated at time `0`
and processed for eight half-second blocks (transport time reaches `4`,
relative time long past the last point time `3`) is still active at stage
`4 = len - 1`: the note-clearing test compares the stage against `len`, an
index the stage never reaches, so the note is never cleared and the
envelope never becomes inactive. -/
theorem c1_note_never_cleared :
    noteStageOf (runBlocks defaultParams (1/2) initState evsNoteOnLong) =
      some 4 ∧
    hasNote (runBlocks defaultParams (1/2) initState evsNoteOnLong) = true ∧
    timeOf (runBlocks defaultParams (1/2) initState evsNoteOnLong) =
      some 4 := by
  norm_num [runBlocks, processBlock, applyEvent, tickMaster, applyAllEnvs, writeATag, writeBTag, writeNoiseTag, writeEnvTag, envValue, specEnvValue, qlerp, noteStageOf, hasNote, timeOf, envValOf, aEnvValOf, evsNoteOnLong, evsNoteOnShort, evsWithNoteOff, evsWithoutNoteOff, defaultParams, defaultEnv, initState, emptyParams, onePointParams, oneActiveState, skippedState, degSeg, List.replicate]

/-- C2: a note-off during the second segment jumps the stage to `len - 2`
without recomputing the activation time (that recomputation is commented
out in the source), so the master envelope value jumps from `1` to `6/5`
between consecutive blocks: a discontinuity far larger than the claimed
epsilon `1/100`. -/
theorem c2_release_jump_discontinuity :
    envValOf (runBlocks defaultParams (1/10) initState evsNoteOnShort) =
      some 1 ∧
    envValOf (runBlocks defaultParams (1/10) initState evsWithNoteOff) =
      some (6/5) ∧
    ¬ ((6/5 : ℚ) - 1 < 1/100) := by
  norm_num [runBlocks, processBlock, applyEvent, tickMaster, applyAllEnvs, writeATag, writeBTag, writeNoiseTag, writeEnvTag, envValue, specEnvValue, qlerp, noteStageOf, hasNote, timeOf, envValOf, aEnvValOf, evsNoteOnLong, evsNoteOnShort, evsWithNoteOff, evsWithoutNoteOff, defaultParams, defaultEnv, initState, emptyParams, onePointParams, oneActiveState, skippedState, degSeg, List.replicate]

/-- C5 counterexample: the operator-A envelope is driven by the same shared
stage index as the master envelope, so a matching note-off jumps it too:
with the note-off the block emits `6/5` for the operator-A tag (reading
points 3 and 4 of its list), while the identical block sequence without the
note-off emits `47/50` (still reading points 1 and 2); the claim that the
operator envelopes are not jumped by a note-off is false. -/
theorem c5_counterexample :
    aEnvValOf (runBlocks defaultParams (1/10) initState evsWithNoteOff) =
      some (6/5) ∧
    aEnvValOf (runBlocks defaultParams (1/10) initState evsWithoutNoteOff) =
      some (47/50) ∧
    noteStageOf (runBlocks defaultParams (1/10) initState evsWithNoteOff) =
      some 3 ∧
    noteStageOf (runBlocks defaultParams (1/10) initState evsWithoutNoteOff) =
      some 1 := by
  norm_num [runBlocks, processBlock, applyEvent, tickMaster, applyAllEnvs, writeATag, writeBTag, writeNoiseTag, writeEnvTag, envValue, specEnvValue, qlerp, noteStageOf, hasNote, timeOf, envValOf, aEnvValOf, evsNoteOnLong, evsNoteOnShort, evsWithNoteOff, evsWithoutNoteOff, defaultParams, defaultEnv, initState, emptyParams, onePointParams, oneActiveState, skippedState, degSeg, List.replicate]

/-- C6 counterexample: with an empty master point list, a note-on block
immediately clears the note again (natural completion), yet the enabled
flag stays set, so the following block with no active note still advances
the transport clock from `1/2` to `1`; the claim that the clock is not
advanced while no note is active is false. -/
theorem c6_counterexample :
    hasNote (runBlocks emptyParams (1/2) initState
      [some (NoteEvent.noteOn 60 100)]) = false ∧
    timeOf (runBlocks emptyParams (1/2) initState
      [some (NoteEvent.noteOn 60 100)]) = some (1/2) ∧
    timeOf (runBlocks emptyParams (1/2) initState
      [some (NoteEvent.noteOn 60 100), none]) = some 1 := by
  norm_num [runBlocks, processBlock, applyEvent, tickMaster, applyAllEnvs, writeATag, writeBTag, writeNoiseTag, writeEnvTag, envValue, specEnvValue, qlerp, noteStageOf, hasNote, timeOf, envValOf, aEnvValOf, evsNoteOnLong, evsNoteOnShort, evsWithNoteOff, evsWithoutNoteOff, defaultParams, defaultEnv, initState, emptyParams, onePointParams, oneActiveState, skippedState, degSeg, List.replicate]

/-- C7 counterexample: at relative time `3/2` a note still at stage `0` has
passed both the point at time `1/2` and the point at time `1`, but a single
tick advances the stage only once, to `1`, leaving the relative time still
at or beyond the next point's time `1`; the claimed repeated advancement
within one tick does not happen. -/
theorem c7_counterexample :
    (tickMaster defaultParams skippedState).note =
      some ⟨60, 100, 0, 1⟩ ∧
    defaultParams.env.get? 2 = some (1, 7/10) ∧
    ((3/2 : ℚ) - 0 ≥ 1) := by
  norm_num [runBlocks, processBlock, applyEvent, tickMaster, applyAllEnvs, writeATag, writeBTag, writeNoiseTag, writeEnvTag, envValue, specEnvValue, qlerp, noteStageOf, hasNote, timeOf, envValOf, aEnvValOf, evsNoteOnLong, evsNoteOnShort, evsWithNoteOff, evsWithoutNoteOff, defaultParams, defaultEnv, initState, emptyParams, onePointParams, oneActiveState, skippedState, degSeg, List.replicate]

/-- C8 counterexample: on a zero-length segment the code divides by zero
with no guard, producing the left value `1/5` in the rational model (a
non-finite float in the program) instead of the claimed instantaneous step
to the right value `4/5`; and the normalized position is not clamped: at
stage 3 of the default envelope with relative time `3/5` the position is
`-7/5` and the emitted value `6/5` overshoots the segment's value range
(the clamped computation would emit `1/2`). -/
theorem c8_counterexample :
    envValue degSeg (3/2) ⟨60, 100, 0, 0⟩ = some (1/5) ∧
    specEnvValue degSeg (3/2) ⟨60, 100, 0, 0⟩ = some (4/5) ∧
    envValue defaultEnv (3/5) ⟨60, 100, 0, 3⟩ = some (6/5) ∧
    specEnvValue defaultEnv (3/5) ⟨60, 100, 0, 3⟩ = some (1/2) ∧
    ¬ ((6/5 : ℚ) ≤ 1) := by
  norm_num [runBlocks, processBlock, applyEvent, tickMaster, applyAllEnvs, writeATag, writeBTag, writeNoiseTag, writeEnvTag, envValue, specEnvValue, qlerp, noteStageOf, hasNote, timeOf, envValOf, aEnvValOf, evsNoteOnLong, evsNoteOnShort, evsWithNoteOff, evsWithoutNoteOff, defaultParams, defaultEnv, initState, emptyParams, onePointParams, oneActiveState, skippedState, degSeg, List.replicate]

/-- C9: with a single-point master list, a matching note-off computes
`len - 2` on an unsigned integer and underflows (a debug build of the audio
thread aborts), modelled as the error result; and a block with no event
does not emit the first point's value `9/10` (the tag keeps its previous
value `0`) and does not clear the note. -/
theorem c9_short_list_noteoff_underflows :
    processBlock onePointParams (1/10) oneActiveState
      (some (NoteEvent.noteOff 60 90)) = Except.error () ∧
    envValOf (processBlock onePointParams (1/10) oneActiveState none) =
      some 0 ∧
    hasNote (processBlock onePointParams (1/10) oneActiveState none) =
      true := by
  norm_num [runBlocks, processBlock, applyEvent, tickMaster, applyAllEnvs, writeATag, writeBTag, writeNoiseTag, writeEnvTag, envValue, specEnvValue, qlerp, noteStageOf, hasNote, timeOf, envValOf, aEnvValOf, evsNoteOnLong, evsNoteOnShort, evsWithNoteOff, evsWithoutNoteOff, defaultParams, defaultEnv, initState, emptyParams, onePointParams, oneActiveState, skippedState, degSeg, List.replicate]

/-- C10 counterexample: one block after the note-on the stage is `0`; a
single further block carrying a matching note-off sets it to `3`, an
increase of three in one block, refuting the claim that the stage increases
by at most one per block. -/
theorem c10_counterexample :
    noteStageOf (runBlocks defaultParams (1/10) initState
      [some (NoteEvent.noteOn 60 100)]) = some 0 ∧
    noteStageOf (runBlocks defaultParams (1/10) initState
      [some (NoteEvent.noteOn 60 100), some (NoteEvent.noteOff 60 90)]) =
      some 3 := by
  norm_num [runBlocks, processBlock, applyEvent, tickMaster, applyAllEnvs, writeATag, writeBTag, writeNoiseTag, writeEnvTag, envValue, specEnvValue, qlerp, noteStageOf, hasNote, timeOf, envValOf, aEnvValOf, evsNoteOnLong, evsNoteOnShort, evsWithNoteOff, evsWithoutNoteOff, defaultParams, defaultEnv, initState, emptyParams, onePointParams, oneActiveState, skippedState, degSeg, List.replicate]

/-- The tag writers leave the transport time unchanged. -/
theorem writeTags_time (s : State) (va vb vn ve : Option ℚ) :
    (writeEnvTag (writeNoiseTag (writeBTag (writeATag s va) vb) vn) ve).time =
      s.time := by
  cases va <;> cases vb <;> cases vn <;> cases ve <;> rfl

/-- The tag writers leave the enabled flag unchanged. -/
theorem writeTags_enabled (s : State) (va vb vn ve : Option ℚ) :
    (writeEnvTag (writeNoiseTag (writeBTag (writeATag s va) vb) vn)
        ve).enabled = s.enabled := by
  cases va <;> cases vb <;> cases vn <;> cases ve <;> rfl

/-- The tag writers leave the note unchanged. -/
theorem writeTags_note (s : State) (va vb vn ve : Option ℚ) :
    (writeEnvTag (writeNoiseTag (writeBTag (writeATag s va) vb) vn) ve).note =
      s.note := by
  cases va <;> cases vb <;> cases vn <;> cases ve <;> rfl

/-- Emitting the envelope values changes no field but the four tags: the
transport time is preserved. -/
theorem applyAllEnvs_time (p : Params) (s : State) :
    (applyAllEnvs p s).time = s.time := by
  unfold applyAllEnvs
  split
  · rfl
  · exact writeTags_time _ _ _ _ _

/-- Emitting the envelope values preserves the enabled flag. -/
theorem applyAllEnvs_enabled (p : Params) (s : State) :
    (applyAllEnvs p s).enabled = s.enabled := by
  unfold applyAllEnvs
  split
  · rfl
  · exact writeTags_enabled _ _ _ _ _

/-- Emitting the envelope values preserves the note. -/
theorem applyAllEnvs_note (p : Params) (s : State) :
    (applyAllEnvs p s).note = s.note := by
  unfold applyAllEnvs
  split
  · rfl
  · rw [writeTags_note]

/-- The master-envelope tick leaves the transport time unchanged. -/
theorem tickMaster_time (p : Params) (s : State) :
    (tickMaster p s).time = s.time := by
  unfold tickMaster
  split
  · rfl
  · dsimp only []
    split <;> rfl

/-- The master-envelope tick preserves the enabled flag. -/
theorem tickMaster_enabled (p : Params) (s : State) :
    (tickMaster p s).enabled = s.enabled := by
  unfold tickMaster
  split
  · rfl
  · dsimp only []
    split <;> rfl

/-- The master-envelope tick either clears the note, keeps it unchanged, or
advances its stage by exactly one. -/
theorem tickMaster_note_cases (p : Params) (s : State) (cur : NoteInfo)
    (h : s.note = some cur) :
    (tickMaster p s).note = none ∨
    (tickMaster p s).note = some cur ∨
    (tickMaster p s).note = some { cur with stage := cur.stage + 1 } := by
  unfold tickMaster
  rw [h]
  simp only []
  split
  · left; rfl
  · cases hg : p.env.get? (cur.stage + 1) with
    | none => right; left; simp [hg]
    | some next =>
        by_cases hrel : s.time - cur.onTime ≥ next.1
        · right; right; simp [hg, if_pos hrel]
        · right; left; simp [hg, if_neg hrel]

/-- Event handling preserves the transport time, and the enabled flag once
set. -/
theorem applyEvent_ok_fields (p : Params) (s s1 : State)
    (ev : Option NoteEvent) (h : applyEvent p s ev = Except.ok s1) :
    s1.time = s.time ∧ (s.enabled = true → s1.enabled = true) := by
  unfold applyEvent at h
  split at h
  · cases h; exact ⟨rfl, fun h => h⟩
  · cases h; exact ⟨rfl, fun _ => rfl⟩
  · split at h
    · cases h; exact ⟨rfl, fun h => h⟩
    · split at h
      · split at h
        · cases h
        · cases h; exact ⟨rfl, fun h => h⟩
      · cases h; exact ⟨rfl, fun h => h⟩

/-- C5 amended: a note-off for the matching pitch updates the single stage
index stored on the note, setting it to the master point-list length minus
two; since all four `set_env` closures interpolate their own list at this
one shared index, the operator and noise envelopes are jumped along with
the master envelope, rather than continuing independent progressions. -/
theorem c5_noteoff_sets_shared_stage (p : Params) (s : State)
    (cur : NoteInfo) (n v : ℕ) (hnote : s.note = some cur)
    (hmatch : cur.note = n) (hlen : 2 ≤ p.env.length) :
    applyEvent p s (some (NoteEvent.noteOff n v)) =
      Except.ok { s with
        note := some { cur with velocity := v,
                                stage := p.env.length - 2 } } := by
  subst hmatch
  simp only [applyEvent, hnote]
  rw [if_pos trivial, if_neg (by omega)]

/-- C5 witness: the shared-stage note-off update at a concrete state (stage
1 of the default parameters jumps to stage 3 for all envelope reads). -/
theorem c5_noteoff_sets_shared_stage_witness :
    (⟨3/5, some ⟨60, 100, 0, 1⟩, true, 0, 0, 0, 0⟩ : State).note =
      some ⟨60, 100, 0, 1⟩ ∧
    (⟨60, 100, 0, 1⟩ : NoteInfo).note = 60 ∧
    2 ≤ defaultParams.env.length ∧
    applyEvent defaultParams ⟨3/5, some ⟨60, 100, 0, 1⟩, true, 0, 0, 0, 0⟩
        (some (NoteEvent.noteOff 60 90)) =
      Except.ok ⟨3/5, some ⟨60, 90, 0, 3⟩, true, 0, 0, 0, 0⟩ :=
  ⟨rfl, rfl, by norm_num [defaultParams, defaultEnv],
    c5_noteoff_sets_shared_stage defaultParams
      ⟨3/5, some ⟨60, 100, 0, 1⟩, true, 0, 0, 0, 0⟩ ⟨60, 100, 0, 1⟩ 60 90
      rfl rfl (by norm_num [defaultParams, defaultEnv])⟩

/-- C6 amended: once the enabled flag is set (by any note-on) it is never
cleared, and every successfully processed block advances the transport
clock by the block duration and renders the signal graph, whether or not a
note is active; silence and a paused clock hold only before the first
note-on. -/
theorem c6_enabled_never_cleared (p : Params) (d : ℚ) (s s' : State)
    (ev : Option NoteEvent) (hen : s.enabled = true)
    (hok : processBlock p d s ev = Except.ok s') :
    s'.time = s.time + d ∧ s'.enabled = true := by
  unfold processBlock at hok
  cases hev : applyEvent p s ev with
  | error e => rw [hev] at hok; cases hok
  | ok s1 =>
      rw [hev] at hok
      obtain ⟨ht1, hen1⟩ := applyEvent_ok_fields p s s1 ev hev
      have h3e : (applyAllEnvs p (tickMaster p s1)).enabled = true := by
        rw [applyAllEnvs_enabled, tickMaster_enabled]; exact hen1 hen
      have h3t : (applyAllEnvs p (tickMaster p s1)).time = s.time := by
        rw [applyAllEnvs_time, tickMaster_time, ht1]
      simp only [h3e, if_true] at hok
      cases hok
      exact ⟨by simp [h3t], rfl⟩

/-- C6 witness: a block with no event and no active note, in an enabled
state, still advances the clock by the block duration. -/
theorem c6_enabled_never_cleared_witness :
    (⟨1/2, none, true, 0, 0, 0, 0⟩ : State).enabled = true ∧
    processBlock emptyParams (1/2) ⟨1/2, none, true, 0, 0, 0, 0⟩ none =
      Except.ok ⟨1, none, true, 0, 0, 0, 0⟩ ∧
    ((⟨1, none, true, 0, 0, 0, 0⟩ : State).time =
        (⟨1/2, none, true, 0, 0, 0, 0⟩ : State).time + 1/2 ∧
      (⟨1, none, true, 0, 0, 0, 0⟩ : State).enabled = true) :=
  ⟨rfl,
    by norm_num [processBlock, applyEvent, tickMaster, applyAllEnvs,
      emptyParams],
    c6_enabled_never_cleared emptyParams (1/2)
      ⟨1/2, none, true, 0, 0, 0, 0⟩ ⟨1, none, true, 0, 0, 0, 0⟩ none rfl
      (by norm_num [processBlock, applyEvent, tickMaster, applyAllEnvs,
        emptyParams])⟩

/-- C7 amended: a single tick advances the stage of a surviving note by at
most one, regardless of how many point times the relative time has passed;
skipping several segments takes several blocks. -/
theorem c7_at_most_one_advance (p : Params) (s : State)
    (cur cur' : NoteInfo) (h : s.note = some cur)
    (h' : (tickMaster p s).note = some cur') :
    cur'.stage ≤ cur.stage + 1 := by
  rcases tickMaster_note_cases p s cur h with hc | hc | hc
  · rw [hc] at h'; cases h'
  · rw [hc] at h'
    cases h'
    exact Nat.le_succ _
  · rw [hc] at h'
    cases h'
    exact Nat.le_refl _

/-- C7 witness: the single advancement at the concrete skipped state (two
point times passed, stage advances from 0 only to 1). -/
theorem c7_at_most_one_advance_witness :
    skippedState.note = some ⟨60, 100, 0, 0⟩ ∧
    (tickMaster defaultParams skippedState).note = some ⟨60, 100, 0, 1⟩ ∧
    (⟨60, 100, 0, 1⟩ : NoteInfo).stage ≤
      (⟨60, 100, 0, 0⟩ : NoteInfo).stage + 1 :=
  ⟨rfl,
    by norm_num [tickMaster, skippedState, defaultParams, defaultEnv],
    c7_at_most_one_advance defaultParams skippedState ⟨60, 100, 0, 0⟩
      ⟨60, 100, 0, 1⟩ rfl
      (by norm_num [tickMaster, skippedState, defaultParams, defaultEnv])⟩

/-- C8 amended: the unguarded, unclamped position computation agrees with
the guarded-and-clamped rule of the specification exactly when the segment
has positive length and the relative time lies inside it; outside those
conditions the code neither steps to the right value on a degenerate
segment nor clamps (it extrapolates past the endpoints). -/
theorem c8_agree_inside_segment (points : List (ℚ × ℚ)) (time : ℚ)
    (note : NoteInfo) (left right : ℚ × ℚ)
    (hl : points.get? note.stage = some left)
    (hr : points.get? (note.stage + 1) = some right)
    (hlt : left.1 < right.1)
    (h0 : left.1 ≤ time - note.onTime)
    (h1 : time - note.onTime ≤ right.1) :
    envValue points time note = specEnvValue points time note := by
  have hd : 0 < right.1 - left.1 := sub_pos.mpr hlt
  have hge : 0 ≤ (time - note.onTime - left.1) / (right.1 - left.1) :=
    div_nonneg (by linarith) hd.le
  have hle : (time - note.onTime - left.1) / (right.1 - left.1) ≤ 1 :=
    (div_le_one hd).mpr (by linarith)
  unfold envValue specEnvValue
  rw [hl, hr]
  dsimp only []
  rw [if_neg (ne_of_lt hlt), min_eq_right hle, max_eq_right hge]

/-- C8 witness: inside the first segment of the default envelope the code's
value and the specified guarded value coincide. -/
theorem c8_agree_inside_segment_witness :
    defaultEnv.get? 0 = some (0, 0) ∧
    defaultEnv.get? 1 = some (1/2, 1) ∧
    ((0 : ℚ) < 1/2) ∧ ((0 : ℚ) ≤ 1/4 - 0) ∧ ((1/4 : ℚ) - 0 ≤ 1/2) ∧
    envValue defaultEnv (1/4) ⟨60, 100, 0, 0⟩ =
      specEnvValue defaultEnv (1/4) ⟨60, 100, 0, 0⟩ :=
  ⟨rfl, rfl, by norm_num, by norm_num, by norm_num,
    c8_agree_inside_segment defaultEnv (1/4) ⟨60, 100, 0, 0⟩ (0, 0)
      (1/2, 1) rfl rfl (by norm_num) (by norm_num) (by norm_num)⟩

/-- Event handling preserves the stage bound `stage < length` of the master
point list, provided the list has at least two points (a note-on resets the
stage to `0`, a matching note-off sets it to `length - 2`). -/
theorem applyEvent_stage_lt (p : Params) (s s1 : State)
    (ev : Option NoteEvent) (hlen : 2 ≤ p.env.length)
    (hinv : ∀ cur, s.note = some cur → cur.stage < p.env.length)
    (hok : applyEvent p s ev = Except.ok s1) :
    ∀ cur, s1.note = some cur → cur.stage < p.env.length := by
  unfold applyEvent at hok
  split at hok
  · cases hok; exact hinv
  · cases hok
    intro cur h
    cases h
    show 0 < p.env.length
    omega
  · split at hok
    · cases hok; exact hinv
    · split at hok
      · split at hok
        · cases hok
        · cases hok
          intro cur h
          cases h
          show p.env.length - 2 < p.env.length
          omega
      · cases hok; exact hinv

/-- The tick leaves an inactive state untouched. -/
theorem tickMaster_of_none (p : Params) (s : State) (h : s.note = none) :
    tickMaster p s = s := by
  unfold tickMaster
  rw [h]

/-- The master-envelope tick preserves the stage bound `stage < length`:
the stage is incremented only when the point at the incremented index
exists. -/
theorem tickMaster_stage_lt (p : Params) (s : State)
    (hinv : ∀ cur, s.note = some cur → cur.stage < p.env.length) :
    ∀ cur', (tickMaster p s).note = some cur' →
      cur'.stage < p.env.length := by
  intro cur' h'
  cases hs : s.note with
  | none =>
      rw [tickMaster_of_none p s hs, hs] at h'
      cases h'
  | some cur =>
      unfold tickMaster at h'
      rw [hs] at h'
      dsimp only [] at h'
      split at h'
      · cases h'
      · cases hg : p.env.get? (cur.stage + 1) with
        | none =>
            rw [hg] at h'
            cases h'
            exact hinv _ hs
        | some next =>
            rw [hg] at h'
            dsimp only [] at h'
            by_cases hrel : s.time - cur.onTime ≥ next.1
            · rw [if_pos hrel] at h'
              cases h'
              show cur.stage + 1 < p.env.length
              obtain ⟨hb, _⟩ := List.get?_eq_some.mp hg
              exact hb
            · rw [if_neg hrel] at h'
              cases h'
              exact hinv _ hs

/-- C10 amended: for a master point list of length at least two that is not
edited, each successfully processed block preserves the invariant that the
active note's stage is strictly below the list length; in particular the
stage never equals the length, so the note-clearing branch of the tick is
unreachable.  (The other half of the original claim is false: a matching
note-off can raise the stage by more than one in a single block.) -/
theorem c10_stage_bound_invariant (p : Params) (d : ℚ) (s s' : State)
    (ev : Option NoteEvent) (hlen : 2 ≤ p.env.length)
    (hinv : ∀ cur, s.note = some cur → cur.stage < p.env.length)
    (hok : processBlock p d s ev = Except.ok s') :
    ∀ cur', s'.note = some cur' → cur'.stage < p.env.length := by
  unfold processBlock at hok
  cases hev : applyEvent p s ev with
  | error e => rw [hev] at hok; cases hok
  | ok s1 =>
      rw [hev] at hok
      have hinv1 := applyEvent_stage_lt p s s1 ev hlen hinv hev
      have hinv2 := tickMaster_stage_lt p s1 hinv1
      intro cur' h'
      have hnote : s'.note = (applyAllEnvs p (tickMaster p s1)).note := by
        cases he : (applyAllEnvs p (tickMaster p s1)).enabled with
        | true =>
            simp only [he, if_true] at hok
            cases hok
            rfl
        | false =>
            simp only [he, Bool.false_eq_true, if_false] at hok
            cases hok
            rfl
      rw [hnote, applyAllEnvs_note] at h'
      exact hinv2 cur' h'

/-- C10 witness: the invariant holds after the note-on block from the
initial state with the default parameters. -/
theorem c10_stage_bound_invariant_witness :
    2 ≤ defaultParams.env.length ∧
    (⟨1/10, some ⟨60, 100, 0, 0⟩, true, 0, 0, 0, 0⟩ : State).note =
      some ⟨60, 100, 0, 0⟩ ∧
    (⟨60, 100, 0, 0⟩ : NoteInfo).stage < defaultParams.env.length :=
  ⟨by norm_num [defaultParams, defaultEnv], rfl,
    c10_stage_bound_invariant defaultParams (1/10) initState
      ⟨1/10, some ⟨60, 100, 0, 0⟩, true, 0, 0, 0, 0⟩
      (some (NoteEvent.noteOn 60 100))
      (by norm_num [defaultParams, defaultEnv])
      (fun cur h => Option.noConfusion h)
      (by norm_num [processBlock, applyEvent, tickMaster, applyAllEnvs,
        writeATag, writeBTag, writeNoiseTag, writeEnvTag, envValue, qlerp,
        defaultParams, defaultEnv, initState])
      ⟨60, 100, 0, 0⟩ rfl⟩

end Synthy
